import Mathlib

/-!
# Kourier xDS server facade (pkg/envoy/xds_server.go)

A shallow embedding of the Go file `pkg/envoy/xds_server.go`:

* `hasher.ID`, the node-hash used by the snapshot cache;
* `NewXdsServer`, `XdsServer.GetSnapshot`, `XdsServer.SetSnapshot`, which delegate to the
  snapshot cache of the control-plane library;
* `XdsServer.RunManagementServer`, whose calls into the gRPC and net libraries are recorded
  as a list of calls and whose blocking `select` is resolved by an explicit environment.

Go pointers are `Option` values (`none` is `nil`), a Go `error` result is an `Option` of an
error value (`none` is `nil`), and `uint` is `Nat`.
-/

namespace Kourier

/-! ## Nodes and the node hash -/

/-- The message `core.Node` of the proxy API. Only its field `Id` is read by this
repository; the declaration of the message is not part of it, so every other field is
gathered in `rest`, of an arbitrary type `μ`. -/
structure Node (μ : Type) where
  Id : String
  rest : μ

/-- The type `hasher` of the source: an empty struct. -/
structure hasher where
  deriving DecidableEq, Repr

/-- The method `hasher.ID`:
`if node == nil { return "unknown" }; return node.Id`. -/
def hasher.ID {μ : Type} (_h : hasher) (node : Option (Node μ)) : String :=
  match node with
  | none => "unknown"
  | some n => n.Id

/-! ## Errors -/

/-- A Go `error` value: either a plain error carrying its message, or the error built by
`fmt.Errorf` with the verb `%w`, which carries its message and the error it wraps. -/
inductive GoError where
  | plain (msg : String)
  | wrap (msg : String) (cause : GoError)
  deriving DecidableEq, Repr

/-- The method `Error()` of a Go error: its message. -/
def GoError.Error : GoError → String
  | .plain msg => msg
  | .wrap msg _ => msg

/-- The method `Unwrap()`: the wrapped error, if there is one. -/
def GoError.Unwrap : GoError → Option GoError
  | .plain _ => none
  | .wrap _ cause => some cause

/-- The call `fmt.Errorf(text + "%w", err)` for a literal `text` that holds no verb:
the message is `text` followed by the message of `err`, and `err` is wrapped. -/
def fmt.Errorf (text : String) (err : GoError) : GoError :=
  .wrap (text ++ err.Error) err

/-! ## Snapshots and the snapshot cache -/

/-- The closed set of resource types of the spec. -/
inductive ResourceType where
  | Cluster
  | Listener
  | Route
  | Endpoint
  deriving DecidableEq, Repr

/-- Modelled from the spec: the per-type content of a snapshot (the type belongs to the
control-plane library, which is not part of this repository): a version token, compared
only for equality, and an ordered sequence of serialized resource definitions. -/
structure Resources where
  Version : String
  Items : List String
  deriving DecidableEq, Repr

/-- Modelled from the spec: the type `cache.Snapshot` of the control-plane library, which is
not part of this repository: for each resource type, a version token and the resources. -/
structure Snapshot where
  Clusters : Resources
  Listeners : Resources
  Routes : Resources
  Endpoints : Resources
  deriving DecidableEq, Repr

/-- Modelled from the spec: the content of a snapshot for one resource type (the accessors
of `cache.Snapshot` belong to the library, which is not part of this repository). -/
def Snapshot.GetResources (s : Snapshot) : ResourceType → Resources
  | .Cluster => s.Clusters
  | .Listener => s.Listeners
  | .Route => s.Routes
  | .Endpoint => s.Endpoints

/-- Modelled from the spec: the failure of the snapshot store, the not-found indication of
`Get`, which records the node key of the call. The error values of the library are not part
of this repository. -/
inductive StoreError where
  | notFound (node : String)
  deriving DecidableEq, Repr

/-- Modelled from the spec: the snapshot cache `cache.SnapshotCache` of the control-plane
library, which is not part of this repository (the source only calls its constructor and
its methods `GetSnapshot` and `SetSnapshot`). It holds at most one snapshot per node key.
The source hands it the flag `ads`, the node hash and a logger, and nothing that inspects a
snapshot. The watch registry that `Set` notifies is not modelled. -/
structure SnapshotCache where
  ads : Bool
  hash : hasher
  snapshots : String → Option Snapshot

/-- Modelled from the spec: the constructor `cache.NewSnapshotCache` of the library, absent
from this repository: a store that holds no snapshot. The third argument is the logger, a
pointer that is `nil` in the source call; the store writes no log here. -/
def cache.NewSnapshotCache (ads : Bool) (hash : hasher) (_logger : Option Unit) :
    SnapshotCache :=
  { ads := ads, hash := hash, snapshots := fun _ => none }

/-- Modelled from the spec: the operation `Get(nodeKey) -> snapshot, found` of the snapshot
store (the library method `GetSnapshot`, absent from this repository): the current snapshot
of the node, or a not-found indication. Read-only. -/
def SnapshotCache.GetSnapshot (c : SnapshotCache) (node : String) :
    Except StoreError Snapshot :=
  match c.snapshots node with
  | some snapshot => .ok snapshot
  | none => .error (.notFound node)

/-- Modelled from the spec: the operation `Set(nodeKey, snapshot)` of the snapshot store
(the library method `SetSnapshot`, absent from this repository): it replaces the entire
snapshot of the node. The store is given nothing that inspects a snapshot, so every
snapshot is stored and the returned error is `nil`. The result is the store after the call
and the returned error. -/
def SnapshotCache.SetSnapshot (c : SnapshotCache) (node : String) (snapshot : Snapshot) :
    SnapshotCache × Option StoreError :=
  ({ c with snapshots := fun k => if k = node then some snapshot else c.snapshots k }, none)

/-! ## The server -/

/-- The contexts of package `context`: the background context, and a context that its owner
can cancel (made by `WithCancel`, `WithDeadline` or `WithTimeout`). -/
inductive Context where
  | background
  | withCancel
  deriving DecidableEq, Repr

/-- The call `context.Background()`. -/
def context.Background : Context := .background

/-- The channel `ctx.Done()`, as the tick at which it is closed (`none`: never). The
background context has a nil channel, on which a receive blocks for ever; a cancellable
context is closed when its owner cancels it, at tick `cancelAt`. -/
def Context.Done (ctx : Context) (cancelAt : Option Nat) : Option Nat :=
  match ctx with
  | .background => none
  | .withCancel => cancelAt

/-- The value `xds.Server` made by `xds.NewServer(ctx, snapshotCache, callbacks)`. The
library is not part of this repository; the value keeps the arguments it was made from.
Its cache is the very object held in `XdsServer.snapshotCache` and is not repeated here. -/
structure Server (κ : Type) where
  ctx : Context
  callbacks : κ

/-- The call `xds.NewServer(ctx, snapshotCache, callbacks)`. -/
def xds.NewServer {κ : Type} (ctx : Context) (_config : SnapshotCache) (callbacks : κ) :
    Server κ :=
  { ctx := ctx, callbacks := callbacks }

/-- The constant `grpcMaxConcurrentStreams`. -/
def grpcMaxConcurrentStreams : Nat := 1000000

/-- The struct `XdsServer`; `κ` is the type of the callbacks (`xds.Callbacks`). -/
structure XdsServer (κ : Type) where
  managementPort : Nat
  ctx : Context
  server : Server κ
  snapshotCache : SnapshotCache

/-- The function `NewXdsServer`. -/
def NewXdsServer {κ : Type} (managementPort : Nat) (callbacks : κ) : XdsServer κ :=
  let ctx := context.Background
  let snapshotCache := cache.NewSnapshotCache true {} none
  let srv := xds.NewServer ctx snapshotCache callbacks
  { managementPort := managementPort, ctx := ctx, server := srv, snapshotCache := snapshotCache }

/-- The method `XdsServer.GetSnapshot`: the result of the cache, passed on. -/
def XdsServer.GetSnapshot {κ : Type} (envoyXdsServer : XdsServer κ) (nodeid : String) :
    Except StoreError Snapshot :=
  envoyXdsServer.snapshotCache.GetSnapshot nodeid

/-- The method `XdsServer.SetSnapshot`:
`return envoyXdsServer.snapshotCache.SetSnapshot(nodeID, *snapshot)`.
The argument is a pointer; dereferencing `nil` panics, which is the result `none`. Otherwise
the result is the server after the call and the returned error. -/
def XdsServer.SetSnapshot {κ : Type} (envoyXdsServer : XdsServer κ)
    (snapshot : Option Snapshot) (nodeID : String) :
    Option (XdsServer κ × Option StoreError) :=
  match snapshot with
  | none => none
  | some s =>
    let r := envoyXdsServer.snapshotCache.SetSnapshot nodeID s
    some ({ envoyXdsServer with snapshotCache := r.1 }, r.2)

/-- Runs `SetSnapshot` on one node id for each pointer of the list, in order, and stops with
`none` at the first call that panics or returns an error: `some` is the server after a
sequence of successful calls. -/
def XdsServer.setAll {κ : Type} (envoyXdsServer : XdsServer κ) (nodeID : String) :
    List (Option Snapshot) → Option (XdsServer κ)
  | [] => some envoyXdsServer
  | p :: ps =>
    match envoyXdsServer.SetSnapshot p nodeID with
    | some (next, none) => next.setAll nodeID ps
    | _ => none

/-! ## Running the management server -/

/-- The library calls that `RunManagementServer` makes, in the order of the source. `Serve`
stands for the `go` statement that starts the goroutine running `grpcServer.Serve(lis)`. -/
inductive Call where
  | NewServer (maxConcurrentStreams : Nat)
  | Listen (network : String) (address : String)
  | RegisterAggregatedDiscoveryServiceServer
  | RegisterClusterDiscoveryServiceServer
  | RegisterListenerDiscoveryServiceServer
  | RegisterRouteDiscoveryServiceServer
  | Serve
  | GracefulStop
  deriving DecidableEq, Repr

/-- What the world outside the function does during one run of `RunManagementServer`.
Ticks count from the moment the `select` statement starts to wait; what has happened before
that moment has tick `0`.

* `listen network address`: the error of `net.Listen`, `none` when the listener is bound;
* `serve`: `none` when `grpcServer.Serve(lis)` does not return while the function waits,
  otherwise the tick at which it returns and the error it returns (`none` for `nil`);
* `cancelAt`: the tick at which the owner of a cancellable context cancels it, if ever;
* `coin`: the choice of `select` when both of its cases can proceed (`true`: the first).

Every other library call is taken to return. -/
structure Env where
  listen : String → String → Option GoError
  serve : Option (Nat × Option GoError)
  cancelAt : Option Nat
  coin : Bool

/-- The goroutine `if err = grpcServer.Serve(lis); err != nil { errCh <- err }`: the tick
from which a send on the unbuffered channel `errCh` is pending, and the value sent; `none`
when nothing is ever sent (Serve does not return, or returns `nil`). -/
def serveGoroutine (serve : Option (Nat × Option GoError)) : Option (Nat × GoError) :=
  match serve with
  | some (tick, some err) => some (tick, err)
  | _ => none

/-- The case taken by the `select` statement of `RunManagementServer`. -/
inductive SelectCase where
  | ctxDone
  | errCh (err : GoError)
  deriving DecidableEq, Repr

/-- The statement `select { case <-ctx.Done(): ... case err := <-errCh: ... }`: it waits
until a case can proceed and takes the one that can proceed first; when both can proceed at
the same tick the choice is `coin`; when none ever can, it blocks for ever (`none`). -/
def select (done : Option Nat) (errCh : Option (Nat × GoError)) (coin : Bool) :
    Option SelectCase :=
  match done, errCh with
  | none, none => none
  | some _, none => some .ctxDone
  | none, some (_, err) => some (.errCh err)
  | some t, some (u, err) =>
    if t < u then some .ctxDone
    else if u < t then some (.errCh err)
    else if coin then some .ctxDone else some (.errCh err)

/-- How a run of `RunManagementServer` ends: it blocks for ever in `select`, or it returns
an error (`none` for `nil`). -/
inductive Return where
  | blocked
  | returned (err : Option GoError)
  deriving DecidableEq, Repr

/-- A run of `RunManagementServer`: the library calls made, in order, and how it ends. -/
structure Run where
  calls : List Call
  ret : Return
  deriving DecidableEq, Repr

/-- The address `fmt.Sprintf(":%d", port)`. -/
def listenAddress (port : Nat) : String :=
  ":" ++ toString port

/-- The four `Register...Server(grpcServer, server)` calls of the source, in order. -/
def registerServices : List Call :=
  [.RegisterAggregatedDiscoveryServiceServer, .RegisterClusterDiscoveryServiceServer,
   .RegisterListenerDiscoveryServiceServer, .RegisterRouteDiscoveryServiceServer]

/-- The method `XdsServer.RunManagementServer`. -/
def XdsServer.RunManagementServer {κ : Type} (envoyXdsServer : XdsServer κ) (env : Env) :
    Run :=
  let port := envoyXdsServer.managementPort
  let started := [Call.NewServer grpcMaxConcurrentStreams, Call.Listen "tcp" (listenAddress port)]
  match env.listen "tcp" (listenAddress port) with
  | some err => { calls := started, ret := .returned (some (fmt.Errorf "failed to listen: " err)) }
  | none =>
    let serving := started ++ registerServices ++ [Call.Serve]
    match select (envoyXdsServer.ctx.Done env.cancelAt) (serveGoroutine env.serve) env.coin with
    | none => { calls := serving, ret := .blocked }
    | some .ctxDone => { calls := serving ++ [Call.GracefulStop], ret := .returned none }
    | some (.errCh err) =>
      { calls := serving, ret := .returned (some (fmt.Errorf "failed to serve: " err)) }

/-! ## Sample values

The scenario of the spec: node "proxy-1", a first snapshot with cluster version "v1" and
a second one with cluster version "v2". -/

/-- A resource type without resources. -/
def noResources : Resources := { Version := "", Items := [] }

/-- The snapshot with clusters at version "v1": the one cluster "C1". -/
def snapshotV1 : Snapshot :=
  { Clusters := { Version := "v1", Items := ["C1"] }, Listeners := noResources,
    Routes := noResources, Endpoints := noResources }

/-- The snapshot with clusters at version "v2": the clusters "C1" and "C2". -/
def snapshotV2 : Snapshot :=
  { Clusters := { Version := "v2", Items := ["C1", "C2"] }, Listeners := noResources,
    Routes := noResources, Endpoints := noResources }

/-- A snapshot with an inconsistent content: a cluster without a version token, and a
version token for routes without any route. -/
def snapshotBad : Snapshot :=
  { Clusters := { Version := "", Items := ["C3"] }, Listeners := noResources,
    Routes := { Version := "v9", Items := [] }, Endpoints := noResources }

/-- The server built by `NewXdsServer` on port 18000. -/
def sampleServer : XdsServer Unit := NewXdsServer 18000 ()

/-- The sample server after `SetSnapshot` of the first snapshot on "proxy-1". -/
def sampleServerV1 : XdsServer Unit :=
  (sampleServer.setAll "proxy-1" [some snapshotV1]).getD sampleServer

/-- The sample server after `SetSnapshot` of the first and then the second snapshot on
"proxy-1". -/
def sampleServerV2 : XdsServer Unit :=
  (sampleServer.setAll "proxy-1" [some snapshotV1, some snapshotV2]).getD sampleServer

/-- The server of `sampleServerV1` after `SetSnapshot` of the inconsistent snapshot on
"proxy-1". -/
def sampleServerBad : XdsServer Unit :=
  (sampleServerV1.setAll "proxy-1" [some snapshotBad]).getD sampleServerV1

/-- The server of `sampleServerV1` after `SetSnapshot` of the second snapshot on
"proxy-2". -/
def sampleServerTwoNodes : XdsServer Unit :=
  (sampleServerV1.setAll "proxy-2" [some snapshotV2]).getD sampleServerV1

/-- A server whose context can be cancelled, built as a struct literal. -/
def sampleCancellableServer : XdsServer Unit :=
  { managementPort := 18000, ctx := .withCancel,
    server := xds.NewServer .withCancel (cache.NewSnapshotCache true {} none) (),
    snapshotCache := cache.NewSnapshotCache true {} none }

/-- A world in which the port is taken. -/
def envPortTaken : Env :=
  { listen := fun _ _ => some (.plain "listen tcp :18000: bind: address already in use"),
    serve := none, cancelAt := none, coin := true }

/-- A world in which the listener is bound, Serve keeps running and the context is
cancelled at tick 5. -/
def envCancelled : Env :=
  { listen := fun _ _ => none, serve := none, cancelAt := some 5, coin := false }

/-! ## The node hash: theorems -/

/-- C1: `hasher.ID` applied to the nil node returns exactly the sentinel key "unknown". -/
theorem hasher_ID_nil (μ : Type) (h : hasher) :
    h.ID (none : Option (Node μ)) = "unknown" :=
  rfl

/-- C2: for every non-nil node `hasher.ID` returns the field `Id` of the node unchanged; two
non-nil nodes get the same key exactly when their `Id`s are equal; and the key stays the
same whatever the other fields of the node are changed to. -/
theorem hasher_ID_is_node_Id (μ : Type) (h : hasher) (a b : Node μ) (r : μ) :
    h.ID (some a) = a.Id ∧
    (h.ID (some a) = h.ID (some b) ↔ a.Id = b.Id) ∧
    h.ID (some { a with rest := r }) = h.ID (some a) :=
  ⟨rfl, Iff.rfl, rfl⟩

/-- C3, as stated, fails: the non-nil node whose `Id` is the empty string gets the empty
string as its key, which is neither non-empty nor the sentinel "unknown". -/
theorem hasher_ID_empty_Id_not_sentinel :
    hasher.ID {} (some ({ Id := "", rest := () } : Node Unit)) = "" ∧
    hasher.ID {} (some ({ Id := "", rest := () } : Node Unit)) ≠ "unknown" :=
  ⟨rfl, by decide⟩

/-- C3, amended: `hasher.ID` is a total function; the nil node gets the sentinel "unknown",
which is not empty; a non-nil node gets its `Id`, so its key is empty exactly when its `Id`
is empty, and is the sentinel exactly when its `Id` is the text "unknown". -/
theorem hasher_ID_total (μ : Type) (h : hasher) (n : Node μ) :
    h.ID (none : Option (Node μ)) = "unknown" ∧
    h.ID (none : Option (Node μ)) ≠ "" ∧
    h.ID (some n) = n.Id ∧
    (h.ID (some n) = "" ↔ n.Id = "") ∧
    (h.ID (some n) = "unknown" ↔ n.Id = "unknown") :=
  ⟨rfl, by simp [hasher.ID], rfl, Iff.rfl, Iff.rfl⟩

/-! ## The snapshot store: lemmas -/

theorem SnapshotCache.get_after_set_same (c : SnapshotCache) (node : String) (s : Snapshot) :
    (c.SetSnapshot node s).2 = none ∧ (c.SetSnapshot node s).1.GetSnapshot node = .ok s := by
  simp [SnapshotCache.SetSnapshot, SnapshotCache.GetSnapshot]

theorem SnapshotCache.get_after_set_other (c : SnapshotCache) (a b : String) (s : Snapshot)
    (hab : a ≠ b) :
    (c.SetSnapshot a s).1.GetSnapshot b = c.GetSnapshot b := by
  have hba : ¬ b = a := fun h => hab h.symm
  simp [SnapshotCache.SetSnapshot, SnapshotCache.GetSnapshot, hba]

theorem XdsServer.get_after_successful_set {κ : Type} (srv next : XdsServer κ)
    (p : Option Snapshot) (nodeID : String)
    (h : srv.SetSnapshot p nodeID = some (next, none)) :
    ∃ s, p = some s ∧ next.GetSnapshot nodeID = .ok s := by
  cases p with
  | none => simp [XdsServer.SetSnapshot] at h
  | some s =>
    refine ⟨s, rfl, ?_⟩
    simp only [XdsServer.SetSnapshot, Option.some.injEq, Prod.mk.injEq] at h
    obtain ⟨hnext, _⟩ := h
    have hget := (SnapshotCache.get_after_set_same srv.snapshotCache nodeID s).2
    rw [← hnext]
    exact hget

theorem XdsServer.setAll_cons {κ : Type} (srv after : XdsServer κ) (nodeID : String)
    (p : Option Snapshot) (ps : List (Option Snapshot))
    (h : srv.setAll nodeID (p :: ps) = some after) :
    ∃ next, srv.SetSnapshot p nodeID = some (next, none) ∧ next.setAll nodeID ps = some after := by
  unfold XdsServer.setAll at h
  split at h
  · next next heq => exact ⟨next, heq, h⟩
  · simp at h

/-! ## The snapshot store: theorems -/

/-- C4: after any non-empty sequence of successful `SetSnapshot` calls on one node id,
`GetSnapshot` on that id returns, without error, exactly the snapshot passed to the last
call of the sequence. -/
theorem SetSnapshot_last_write_wins {κ : Type} (srv after : XdsServer κ) (nodeID : String)
    (calls : List (Option Snapshot)) (hne : calls ≠ [])
    (h : srv.setAll nodeID calls = some after) :
    ∃ s, calls.getLast hne = some s ∧ after.GetSnapshot nodeID = .ok s := by
  induction calls generalizing srv with
  | nil => exact absurd rfl hne
  | cons p ps ih =>
    obtain ⟨next, hset, hrest⟩ := XdsServer.setAll_cons srv after nodeID p ps h
    cases ps with
    | nil =>
      simp only [XdsServer.setAll, Option.some.injEq] at hrest
      subst hrest
      simpa using XdsServer.get_after_successful_set srv next p nodeID hset
    | cons q qs =>
      obtain ⟨s, hlast, hget⟩ := ih next (by simp) hrest
      exact ⟨s, by simpa using hlast, hget⟩

/-- C4, at the scenario of the spec: "v1" then "v2" set on "proxy-1". -/
theorem SetSnapshot_last_write_wins_witness :
    sampleServer.setAll "proxy-1" [some snapshotV1, some snapshotV2] = some sampleServerV2 ∧
    ∃ s, [some snapshotV1, some snapshotV2].getLast (by simp) = some s ∧
      sampleServerV2.GetSnapshot "proxy-1" = .ok s :=
  ⟨rfl, SetSnapshot_last_write_wins sampleServer sampleServerV2 "proxy-1"
    [some snapshotV1, some snapshotV2] (by simp) rfl⟩

/-- C5, as stated, fails: with "v1" held for "proxy-1", `SetSnapshot` of a snapshot with an
inconsistent content returns nil, and the following `GetSnapshot` returns that snapshot and
not "v1"; and no `SetSnapshot` call on any server with any snapshot returns an error. -/
theorem SetSnapshot_accepts_inconsistent_snapshot :
    sampleServerV1.GetSnapshot "proxy-1" = .ok snapshotV1 ∧
    sampleServerV1.SetSnapshot (some snapshotBad) "proxy-1" = some (sampleServerBad, none) ∧
    sampleServerBad.GetSnapshot "proxy-1" = .ok snapshotBad ∧
    sampleServerBad.GetSnapshot "proxy-1" ≠ .ok snapshotV1 ∧
    ¬ ∃ (srv after : XdsServer Unit) (p : Option Snapshot) (nodeID : String) (err : StoreError),
        srv.SetSnapshot p nodeID = some (after, some err) := by
  refine ⟨rfl, rfl, rfl, ?_, ?_⟩
  · intro h
    have hs : snapshotBad = snapshotV1 := Except.ok.inj h
    exact absurd hs (by decide)
  · rintro ⟨srv, after, p, nodeID, err, h⟩
    cases p with
    | none => simp [XdsServer.SetSnapshot] at h
    | some s => simp [XdsServer.SetSnapshot, SnapshotCache.SetSnapshot] at h

/-- C5, amended: `SetSnapshot` applies no check to the snapshot: for every snapshot, of
whatever content, the call returns nil and replaces the snapshot of the node, so the
following `GetSnapshot` on that node id returns the snapshot just passed; the snapshot of
every other node id stays as it was. -/
theorem SetSnapshot_accepts_every_snapshot {κ : Type} (srv : XdsServer κ) (nodeID : String)
    (s : Snapshot) :
    ∃ after, srv.SetSnapshot (some s) nodeID = some (after, none) ∧
      after.GetSnapshot nodeID = .ok s ∧
      ∀ other, other ≠ nodeID → after.GetSnapshot other = srv.GetSnapshot other := by
  refine ⟨{ srv with snapshotCache := (srv.snapshotCache.SetSnapshot nodeID s).1 }, rfl, ?_, ?_⟩
  · exact (SnapshotCache.get_after_set_same srv.snapshotCache nodeID s).2
  · intro other hne
    exact SnapshotCache.get_after_set_other srv.snapshotCache nodeID other s
      (fun h => hne h.symm)

/-- C6: for two distinct node ids A and B, a `SetSnapshot` call on A, whatever it returns,
leaves the result of `GetSnapshot` on B unchanged, the snapshot as well as whether one is
found. -/
theorem SetSnapshot_other_node_unchanged {κ : Type} (srv after : XdsServer κ)
    (p : Option Snapshot) (a b : String) (err : Option StoreError) (hab : a ≠ b)
    (h : srv.SetSnapshot p a = some (after, err)) :
    after.GetSnapshot b = srv.GetSnapshot b := by
  cases p with
  | none => simp [XdsServer.SetSnapshot] at h
  | some s =>
    simp only [XdsServer.SetSnapshot, Option.some.injEq, Prod.mk.injEq] at h
    rw [← h.1]
    exact SnapshotCache.get_after_set_other srv.snapshotCache a b s hab

/-- C6, at a sample: "proxy-1" holds "v1" and "v2" is set on "proxy-2". -/
theorem SetSnapshot_other_node_unchanged_witness :
    "proxy-2" ≠ "proxy-1" ∧
    sampleServerV1.SetSnapshot (some snapshotV2) "proxy-2" = some (sampleServerTwoNodes, none) ∧
    sampleServerTwoNodes.GetSnapshot "proxy-1" = sampleServerV1.GetSnapshot "proxy-1" :=
  ⟨by decide, rfl, SetSnapshot_other_node_unchanged sampleServerV1 sampleServerTwoNodes
    (some snapshotV2) "proxy-2" "proxy-1" none (by decide) rfl⟩

/-! ## Running the management server: lemmas -/

theorem serveGoroutine_eq_some (serve : Option (Nat × Option GoError)) (u : Nat)
    (err : GoError) (h : serveGoroutine serve = some (u, err)) :
    serve = some (u, some err) := by
  unfold serveGoroutine at h
  split at h
  · simp only [Option.some.injEq, Prod.mk.injEq] at h
    rw [h.1, h.2]
  · simp at h

theorem select_errCh (done : Option Nat) (errCh : Option (Nat × GoError)) (coin : Bool)
    (err : GoError) (h : select done errCh coin = some (.errCh err)) :
    ∃ u, errCh = some (u, err) := by
  unfold select at h
  split at h
  · simp at h
  · simp at h
  · simp only [Option.some.injEq, SelectCase.errCh.injEq] at h
    exact ⟨_, by rw [h]⟩
  · next t u e =>
    refine ⟨u, ?_⟩
    split_ifs at h <;> simp_all

theorem select_done_first (t : Nat) (errCh : Option (Nat × GoError)) (coin : Bool)
    (hfirst : ∀ u err, errCh = some (u, err) → t < u) :
    select (some t) errCh coin = some .ctxDone := by
  cases errCh with
  | none => rfl
  | some g =>
    obtain ⟨u, e⟩ := g
    have hlt : t < u := hfirst u e rfl
    simp [select, hlt]

theorem select_nil_done (errCh : Option (Nat × GoError)) (coin : Bool) :
    select none errCh coin = errCh.map fun g => SelectCase.errCh g.2 := by
  cases errCh with
  | none => rfl
  | some g => rfl

theorem XdsServer.run_listen_error {κ : Type} (srv : XdsServer κ) (env : Env) (err : GoError)
    (h : env.listen "tcp" (listenAddress srv.managementPort) = some err) :
    srv.RunManagementServer env =
      { calls := [.NewServer 1000000, .Listen "tcp" (listenAddress srv.managementPort)],
        ret := .returned (some (fmt.Errorf "failed to listen: " err)) } := by
  simp [XdsServer.RunManagementServer, h, grpcMaxConcurrentStreams]

theorem XdsServer.run_listen_ok {κ : Type} (srv : XdsServer κ) (env : Env)
    (h : env.listen "tcp" (listenAddress srv.managementPort) = none) :
    srv.RunManagementServer env =
      match select (srv.ctx.Done env.cancelAt) (serveGoroutine env.serve) env.coin with
      | none =>
        { calls := [.NewServer 1000000, .Listen "tcp" (listenAddress srv.managementPort)]
            ++ registerServices ++ [.Serve],
          ret := .blocked }
      | some .ctxDone =>
        { calls := [.NewServer 1000000, .Listen "tcp" (listenAddress srv.managementPort)]
            ++ registerServices ++ [.Serve, .GracefulStop],
          ret := .returned none }
      | some (.errCh err) =>
        { calls := [.NewServer 1000000, .Listen "tcp" (listenAddress srv.managementPort)]
            ++ registerServices ++ [.Serve],
          ret := .returned (some (fmt.Errorf "failed to serve: " err)) } := by
  simp only [XdsServer.RunManagementServer, h, grpcMaxConcurrentStreams]
  split <;> simp

/-! ## Running the management server: theorems -/

/-- C7: when `net.Listen` on the management port fails, `RunManagementServer` returns a
non-nil error that wraps the listen error and whose message is "failed to listen: "
followed by the message of the listen error; the only library calls made are the creation
of the gRPC server and the failed `Listen`: no discovery service is registered and the
server does not start serving. -/
theorem RunManagementServer_listen_fails {κ : Type} (srv : XdsServer κ) (env : Env)
    (err : GoError) (h : env.listen "tcp" (listenAddress srv.managementPort) = some err) :
    ∃ e, (srv.RunManagementServer env).ret = .returned (some e) ∧
      e.Error = "failed to listen: " ++ err.Error ∧
      e.Unwrap = some err ∧
      (srv.RunManagementServer env).calls
        = [.NewServer 1000000, .Listen "tcp" (listenAddress srv.managementPort)] ∧
      Call.Serve ∉ (srv.RunManagementServer env).calls ∧
      ∀ c ∈ registerServices, c ∉ (srv.RunManagementServer env).calls := by
  have hrun := XdsServer.run_listen_error srv env err h
  refine ⟨fmt.Errorf "failed to listen: " err, ?_, rfl, rfl, ?_, ?_, ?_⟩
  · rw [hrun]
  · rw [hrun]
  · rw [hrun]; simp
  · rw [hrun]; simp [registerServices]

/-- C7, at a sample: port 18000 is taken. -/
theorem RunManagementServer_listen_fails_witness :
    envPortTaken.listen "tcp" (listenAddress sampleServer.managementPort)
      = some (.plain "listen tcp :18000: bind: address already in use") ∧
    ∃ e, (sampleServer.RunManagementServer envPortTaken).ret = .returned (some e) ∧
      e.Error = "failed to listen: " ++
        (GoError.plain "listen tcp :18000: bind: address already in use").Error ∧
      e.Unwrap = some (.plain "listen tcp :18000: bind: address already in use") ∧
      (sampleServer.RunManagementServer envPortTaken).calls
        = [.NewServer 1000000, .Listen "tcp" (listenAddress sampleServer.managementPort)] ∧
      Call.Serve ∉ (sampleServer.RunManagementServer envPortTaken).calls ∧
      ∀ c ∈ registerServices, c ∉ (sampleServer.RunManagementServer envPortTaken).calls :=
  ⟨rfl, RunManagementServer_listen_fails sampleServer envPortTaken
    (.plain "listen tcp :18000: bind: address already in use") rfl⟩

/-- C8: once the listener is bound, (1) when the context of the server is cancelled and
Serve has not failed by then, `RunManagementServer` calls `GracefulStop` on the gRPC server
as its last call and returns nil; (2) it returns an error only when Serve itself has failed,
and that error wraps the error of Serve with the message "failed to serve: " in front. -/
theorem RunManagementServer_graceful_shutdown {κ : Type} (srv : XdsServer κ) (env : Env)
    (hl : env.listen "tcp" (listenAddress srv.managementPort) = none) :
    (∀ t, srv.ctx.Done env.cancelAt = some t →
      (∀ u err, env.serve = some (u, some err) → t < u) →
      (srv.RunManagementServer env).ret = .returned none ∧
      (srv.RunManagementServer env).calls =
        [.NewServer 1000000, .Listen "tcp" (listenAddress srv.managementPort)]
          ++ registerServices ++ [.Serve, .GracefulStop]) ∧
    (∀ e, (srv.RunManagementServer env).ret = .returned (some e) →
      ∃ u err, env.serve = some (u, some err) ∧ e = fmt.Errorf "failed to serve: " err ∧
        e.Error = "failed to serve: " ++ err.Error ∧ e.Unwrap = some err) := by
  rw [XdsServer.run_listen_ok srv env hl]
  constructor
  · intro t hdone hfirst
    have hsel : select (srv.ctx.Done env.cancelAt) (serveGoroutine env.serve) env.coin
        = some .ctxDone := by
      rw [hdone]
      exact select_done_first t _ _
        (fun u err hg => hfirst u err (serveGoroutine_eq_some _ u err hg))
    rw [hsel]
    exact ⟨rfl, rfl⟩
  · intro e he
    cases hsel : select (srv.ctx.Done env.cancelAt) (serveGoroutine env.serve) env.coin with
    | none => rw [hsel] at he; simp at he
    | some c =>
      cases c with
      | ctxDone => rw [hsel] at he; simp at he
      | errCh err =>
        rw [hsel] at he
        obtain ⟨u, hg⟩ := select_errCh _ _ _ err hsel
        have hee : e = fmt.Errorf "failed to serve: " err := by simpa using he.symm
        exact ⟨u, err, serveGoroutine_eq_some _ u err hg, hee, by rw [hee]; rfl, by rw [hee]; rfl⟩

/-- C8, at a sample: the listener is bound, Serve keeps running, and the context of a server
with a cancellable context is cancelled at tick 5. -/
theorem RunManagementServer_graceful_shutdown_witness :
    envCancelled.listen "tcp" (listenAddress sampleCancellableServer.managementPort) = none ∧
    (sampleCancellableServer.RunManagementServer envCancelled).ret = .returned none ∧
    (sampleCancellableServer.RunManagementServer envCancelled).calls =
      [.NewServer 1000000, .Listen "tcp" ":18000",
       .RegisterAggregatedDiscoveryServiceServer, .RegisterClusterDiscoveryServiceServer,
       .RegisterListenerDiscoveryServiceServer, .RegisterRouteDiscoveryServiceServer,
       .Serve, .GracefulStop] :=
  ⟨rfl, (RunManagementServer_graceful_shutdown sampleCancellableServer envCancelled rfl).1 5
    rfl (fun _ _ h => by simp [envCancelled] at h)⟩

/-- C10: the context of every server built by `NewXdsServer` is the background context,
whose `Done` channel is never closed; so, whatever the world does, a run of
`RunManagementServer` on such a server never calls `GracefulStop` and never returns nil:
it blocks in `select`, or returns a "failed to listen: " error, or returns a
"failed to serve: " error. -/
theorem NewXdsServer_never_returns_nil {κ : Type} (managementPort : Nat) (callbacks : κ)
    (env : Env) :
    (NewXdsServer managementPort callbacks).ctx = context.Background ∧
    (∀ cancelAt, (NewXdsServer managementPort callbacks).ctx.Done cancelAt = none) ∧
    ((NewXdsServer managementPort callbacks).RunManagementServer env).ret
      ≠ .returned none ∧
    Call.GracefulStop ∉
      ((NewXdsServer managementPort callbacks).RunManagementServer env).calls ∧
    (((NewXdsServer managementPort callbacks).RunManagementServer env).ret = .blocked ∨
     ∃ err, ((NewXdsServer managementPort callbacks).RunManagementServer env).ret
        = .returned (some (fmt.Errorf "failed to listen: " err)) ∨
      ((NewXdsServer managementPort callbacks).RunManagementServer env).ret
        = .returned (some (fmt.Errorf "failed to serve: " err))) := by
  have hdone : ∀ cancelAt,
      (NewXdsServer managementPort callbacks).ctx.Done cancelAt = none :=
    fun _ => rfl
  refine ⟨rfl, hdone, ?_⟩
  cases hlisten : env.listen "tcp"
      (listenAddress (NewXdsServer managementPort callbacks).managementPort) with
  | some err =>
    rw [XdsServer.run_listen_error _ env err hlisten]
    exact ⟨by simp, by simp, Or.inr ⟨err, Or.inl rfl⟩⟩
  | none =>
    rw [XdsServer.run_listen_ok _ env hlisten, hdone, select_nil_done]
    cases hg : serveGoroutine env.serve with
    | none => simp [registerServices]
    | some g =>
      refine ⟨by simp, by simp [registerServices], Or.inr ⟨g.2, Or.inr ?_⟩⟩
      simp

end Kourier
